import Mathlib

/-!
Shallow embedding of the KPI Aggregation & Classification Engine of
`dashboard1.py` (UCR electrical project dashboard).

Pandas/numpy values are modelled as `Option ℚ`: `none` stands for NaN,
`some q` for an ordinary float value (counters are exact integers in the
source data, so ℚ is a faithful carrier).  Element-wise pandas arithmetic
on Series is modelled by the corresponding scalar operation on `Option ℚ`,
applied row-wise; a whole-DataFrame operation becomes a function on a
record of the row's counter columns.
-/

namespace Dashboard

/-- Pandas-style nullable numeric value: `none` models NaN. -/
abbrev PV := Option ℚ

/-- Element-wise addition of pandas values (NaN propagates). -/
def addPV (a b : PV) : PV := a.bind fun x => b.map fun y => x + y

/-- Element-wise subtraction of pandas values (NaN propagates). -/
def subPV (a b : PV) : PV := a.bind fun x => b.map fun y => x - y

/-- Element-wise multiplication of pandas values (NaN propagates). -/
def mulPV (a b : PV) : PV := a.bind fun x => b.map fun y => x * y

/-- Element-wise division of pandas values (NaN propagates; a zero
divisor yields an undefined value, modelled as NaN — inside `safe_div`
this branch is unreachable because zeros are replaced by NaN first). -/
def divPV (a b : PV) : PV :=
  a.bind fun x => b.bind fun y => if y = 0 then none else some (x / y)

/-- Model of `Series.replace(0, np.nan)`. -/
def replace0 (a : PV) : PV := if a = some 0 then none else a

/-- Model of `Series.fillna(0)`. -/
def fillna0 (a : PV) : PV := some (a.getD 0)

/-- Model of `safe_div` from `dashboard1.py`:
`den = den.replace(0, np.nan); result = num / den; return result.fillna(0)`. -/
def safe_div (num den : PV) : PV := fillna0 (divPV num (replace0 den))

/-- Element-wise vectorized application of `safe_div` over aligned series. -/
def safe_div_vec (nums dens : List PV) : List PV := List.zipWith safe_div nums dens

/-- Model of the numpy comparison `series < c` on one element:
NaN compares false. -/
def ltPV (v : PV) (c : ℚ) : Bool :=
  match v with
  | none => false
  | some x => decide (x < c)

/-- Model of the numpy comparison `series >= c` on one element:
NaN compares false. -/
def gePV (v : PV) (c : ℚ) : Bool :=
  match v with
  | none => false
  | some x => decide (c ≤ x)

/-- Model of `obtener_estado_kpi` applied to one row's KPI value:
`np.select([v < umbral_rojo, v >= umbral_verde], ["Rojo", "Verde"],
default="Amarillo")`. -/
def obtener_estado_kpi (v : PV) (umbral_verde umbral_rojo : ℚ) : String :=
  if ltPV v umbral_rojo then "Rojo"
  else if gePV v umbral_verde then "Verde"
  else "Amarillo"

/-- One row of raw counters (the 22 numeric counter columns summed by the
aggregations in `dashboard1.py`). Counters are exact numbers, never NaN. -/
@[ext]
structure Row where
  DENOM_CELL_AVAIL : ℚ
  SAMPLES_CELL_AVAIL : ℚ
  NG_FLOW_REL_AMF_UE_LOST : ℚ
  NG_FLOW_REL_NORMAL : ℚ
  NG_FLOW_REL : ℚ
  REESTAB_ACC_FALLBACK : ℚ
  NRRCC_RRC_STPREQ_MO_SIGNALLING : ℚ
  NRRCC_RRC_STPREQ_MO_DATA : ℚ
  NRRCC_RRC_STPREQ_MT_ACCESS : ℚ
  NRRCC_RRC_STPREQ_EMERGENCY : ℚ
  NRRCC_RRC_STPREQ_HIPRIO_ACCESS : ℚ
  NRRCC_RRC_STPREQ_MO_VOICECALL : ℚ
  NRRCC_RRC_STPREQ_MO_SMS : ℚ
  NRRCC_RRC_STPREQ_MPS : ℚ
  NRRCC_RRC_STPREQ_MCS : ℚ
  NRRCC_RRC_STPREQ_MO_VIDEOCAL : ℚ
  NRRCC_RRC_STPSUCC_TOT : ℚ
  NRRCC_RRC_RESUME_FALLBACK_SUCC : ℚ
  NNGCC_INIT_UE_MSG_SENT : ℚ
  NNGCC_UE_LOGICAL_CONN_ESTAB : ℚ
  NNGCC_UE_CTXT_STP_REQ_RECD : ℚ
  NNGCC_UE_CTXT_STP_RESP_SENT : ℚ

/-- A row extended with the five derived KPI columns added by
`calcular_kpis` (KPI columns carry pandas values, hence `PV`).
Column names follow the source; `_Prom` abbreviates the source column
`Retenibilidad_Promedio` and `_Usr` the column `Retenibilidad_Usuario`. -/
@[ext]
structure KpiRow where
  row : Row
  Disponibilidad : PV
  Accesibilidad : PV
  Retenibilidad_Tecnica : PV
  Retenibilidad_Usr : PV
  Retenibilidad_Prom : PV

/-- The stage-1 denominator of the Accessibility chain: `den_t1` in
`calcular_kpis`, the sum of the ten distinct request-cause counters. -/
def den_t1 (r : Row) : ℚ :=
  r.NRRCC_RRC_STPREQ_MO_SIGNALLING + r.NRRCC_RRC_STPREQ_MO_DATA +
  r.NRRCC_RRC_STPREQ_MT_ACCESS + r.NRRCC_RRC_STPREQ_EMERGENCY +
  r.NRRCC_RRC_STPREQ_HIPRIO_ACCESS + r.NRRCC_RRC_STPREQ_MO_VOICECALL +
  r.NRRCC_RRC_STPREQ_MO_SMS + r.NRRCC_RRC_STPREQ_MPS +
  r.NRRCC_RRC_STPREQ_MCS + r.NRRCC_RRC_STPREQ_MO_VIDEOCAL

/-- The stage-2 denominator of the Accessibility chain: `den_t2` in
`calcular_kpis`. -/
def den_t2 (r : Row) : ℚ :=
  r.NRRCC_RRC_STPSUCC_TOT + r.REESTAB_ACC_FALLBACK + r.NRRCC_RRC_RESUME_FALLBACK_SUCC

/-- Model of `calcular_kpis` from `dashboard1.py`, on one row of the
input table (all pandas operations there are element-wise). -/
def calcular_kpis (r : Row) : KpiRow :=
  let disponibilidad :=
    mulPV (some 100) (safe_div (some r.SAMPLES_CELL_AVAIL) (some r.DENOM_CELL_AVAIL))
  let t1 := safe_div (some r.NRRCC_RRC_STPSUCC_TOT) (some (den_t1 r))
  let t2 := safe_div (some r.NNGCC_INIT_UE_MSG_SENT) (some (den_t2 r))
  let t3 := safe_div (some r.NNGCC_UE_LOGICAL_CONN_ESTAB) (some r.NNGCC_INIT_UE_MSG_SENT)
  let t4 := safe_div (some r.NNGCC_UE_CTXT_STP_RESP_SENT) (some r.NNGCC_UE_CTXT_STP_REQ_RECD)
  let accesibilidad := mulPV (some 100) (mulPV (mulPV (mulPV t1 t2) t3) t4)
  let retTec :=
    fillna0 (subPV (some 100) (mulPV (some 100)
      (safe_div (some (r.NG_FLOW_REL - r.NG_FLOW_REL_NORMAL)) (some r.NG_FLOW_REL))))
  let retUsr :=
    fillna0 (subPV (some 100) (mulPV (some 100)
      (safe_div
        (some (r.NG_FLOW_REL - r.NG_FLOW_REL_NORMAL - r.NG_FLOW_REL_AMF_UE_LOST))
        (some r.NG_FLOW_REL))))
  let retProm := divPV (addPV retTec retUsr) (some 2)
  ⟨r, disponibilidad, accesibilidad, retTec, retUsr, retProm⟩

/-- Counter-wise addition of two rows (what summing the underlying raw
rows does column by column). -/
def addRow (a b : Row) : Row :=
  ⟨a.DENOM_CELL_AVAIL + b.DENOM_CELL_AVAIL,
   a.SAMPLES_CELL_AVAIL + b.SAMPLES_CELL_AVAIL,
   a.NG_FLOW_REL_AMF_UE_LOST + b.NG_FLOW_REL_AMF_UE_LOST,
   a.NG_FLOW_REL_NORMAL + b.NG_FLOW_REL_NORMAL,
   a.NG_FLOW_REL + b.NG_FLOW_REL,
   a.REESTAB_ACC_FALLBACK + b.REESTAB_ACC_FALLBACK,
   a.NRRCC_RRC_STPREQ_MO_SIGNALLING + b.NRRCC_RRC_STPREQ_MO_SIGNALLING,
   a.NRRCC_RRC_STPREQ_MO_DATA + b.NRRCC_RRC_STPREQ_MO_DATA,
   a.NRRCC_RRC_STPREQ_MT_ACCESS + b.NRRCC_RRC_STPREQ_MT_ACCESS,
   a.NRRCC_RRC_STPREQ_EMERGENCY + b.NRRCC_RRC_STPREQ_EMERGENCY,
   a.NRRCC_RRC_STPREQ_HIPRIO_ACCESS + b.NRRCC_RRC_STPREQ_HIPRIO_ACCESS,
   a.NRRCC_RRC_STPREQ_MO_VOICECALL + b.NRRCC_RRC_STPREQ_MO_VOICECALL,
   a.NRRCC_RRC_STPREQ_MO_SMS + b.NRRCC_RRC_STPREQ_MO_SMS,
   a.NRRCC_RRC_STPREQ_MPS + b.NRRCC_RRC_STPREQ_MPS,
   a.NRRCC_RRC_STPREQ_MCS + b.NRRCC_RRC_STPREQ_MCS,
   a.NRRCC_RRC_STPREQ_MO_VIDEOCAL + b.NRRCC_RRC_STPREQ_MO_VIDEOCAL,
   a.NRRCC_RRC_STPSUCC_TOT + b.NRRCC_RRC_STPSUCC_TOT,
   a.NRRCC_RRC_RESUME_FALLBACK_SUCC + b.NRRCC_RRC_RESUME_FALLBACK_SUCC,
   a.NNGCC_INIT_UE_MSG_SENT + b.NNGCC_INIT_UE_MSG_SENT,
   a.NNGCC_UE_LOGICAL_CONN_ESTAB + b.NNGCC_UE_LOGICAL_CONN_ESTAB,
   a.NNGCC_UE_CTXT_STP_REQ_RECD + b.NNGCC_UE_CTXT_STP_REQ_RECD,
   a.NNGCC_UE_CTXT_STP_RESP_SENT + b.NNGCC_UE_CTXT_STP_RESP_SENT⟩

/-- The all-zero counter row (identity of counter-wise summation). -/
def zeroRow : Row :=
  ⟨0, 0, 0, 0, 0, 0, 0, 0, 0, 0, 0, 0, 0, 0, 0, 0, 0, 0, 0, 0, 0, 0⟩

/-- Counter-wise sum of a table of raw rows (what
`groupby(...).sum(numeric_only=True)` computes for one group). -/
def sumRows (l : List Row) : Row := l.foldr addRow zeroRow

/-- The per-view reimplementation of technical retainability in the
"KPI Individual" tab of `dashboard1.py` (line 461): it applies the same
formula as `calcular_kpis` but without the trailing `.fillna(0)`. -/
def retenibilidad_tecnica_indiv (rel normal : ℚ) : PV :=
  subPV (some 100) (mulPV (some 100) (safe_div (some (rel - normal)) (some rel)))

/-- The per-view reimplementation of user retainability in the
"KPI Individual" tab of `dashboard1.py` (line 495), again without the
trailing `.fillna(0)`. -/
def retenibilidad_usuario_indiv (rel normal amf_ue_lost : ℚ) : PV :=
  subPV (some 100) (mulPV (some 100)
    (safe_div (some (rel - normal - amf_ue_lost)) (some rel)))

/-- The static cluster table from the "Clusters" tab of `dashboard1.py`:
cluster name together with its list of member site ids. -/
def clusters : List (String × List ℤ) :=
  [("Zona Sur", [1, 2, 3, 4, 5, 6]),
   ("Alajuela", [7, 8, 9, 10, 11, 12, 13, 14, 15, 16, 17]),
   ("San Ramon", [18, 19, 20, 21, 22, 48, 49]),
   ("Cartago", [23, 24, 25, 26, 27, 28, 29, 30, 31, 32, 33, 34, 35, 36, 37, 46, 47]),
   ("Atlántico", [38, 39, 40, 41, 42, 43, 44, 45])]

/-- One row of the filtered raw table as `clusterizar` sees it: its
`Site Id` (already castable to int — the source does `.astype(int)`),
its date (abstract group key) and its numeric counters. -/
structure RawRow where
  siteId : ℤ
  date : ℕ
  row : Row

/-- Model of `groupby("Date", as_index=False).sum(numeric_only=True)`:
one output row per distinct date, in sorted key order (pandas sorts group
keys), carrying the counter-wise sum of the group. -/
def groupByDateSum (rows : List RawRow) : List (ℕ × Row) :=
  (((rows.map (·.date)).dedup).mergeSort (fun a b => decide (a ≤ b))).map
    (fun d => (d, sumRows ((rows.filter (fun r => r.date == d)).map (·.row))))

/-- One output row of `clusterizar`: the tagged cluster name, the date
group key, and the summed counters with their derived KPI columns. -/
structure ClusterRow where
  cluster : String
  date : ℕ
  kpis : KpiRow

/-- Model of `clusterizar` from `dashboard1.py`: for each cluster in the
static table, filter the rows whose site id is a member, skip the cluster
if nothing matched (`if tmp.empty: continue`), otherwise group by date,
sum, and tag with the cluster name; if no cluster matched return the
empty table (`if not registros: return pd.DataFrame()`); finally
concatenate and apply `calcular_kpis` once over the concatenation. -/
def clusterizar (df_in : List RawRow) : List ClusterRow :=
  let registros : List (List (String × ℕ × Row)) :=
    clusters.filterMap (fun c =>
      let tmp := df_in.filter (fun r => c.2.contains r.siteId)
      if tmp.isEmpty then none
      else some ((groupByDateSum tmp).map (fun p => (c.1, p.1, p.2))))
  if registros.isEmpty then []
  else (registros.flatten).map
    (fun p => { cluster := p.1, date := p.2.1, kpis := calcular_kpis p.2.2 })

/-- Zero-denominator-to-zero ratio: the spec's "ratio(·,·) with the Ratio
Engine policy", as a plain rational function.  Used on the statement side
of the claims to characterize what the `Option`-valued pipeline computes
on non-NaN inputs. -/
def ratioZ (a b : ℚ) : ℚ := if b = 0 then 0 else a / b

/-! ### Characterization lemmas for the Ratio Engine -/

/-- On defined (non-NaN) inputs, `safe_div` computes the
zero-denominator-to-zero ratio and never returns NaN. -/
lemma safe_div_some (a b : ℚ) : safe_div (some a) (some b) = some (ratioZ a b) := by
  by_cases hb : b = 0
  · subst hb
    simp [safe_div, replace0, divPV, fillna0, ratioZ]
  · simp [safe_div, replace0, divPV, fillna0, ratioZ, hb, Option.some.injEq]

/-- A zero denominator always produces the value 0, whatever the
numerator (even a NaN numerator). -/
lemma safe_div_zero_den (num : PV) : safe_div num (some 0) = some 0 := by
  cases num <;> simp [safe_div, replace0, divPV, fillna0]

/-- `safe_div` never returns NaN: its result is always `some` value. -/
lemma safe_div_isSome (num den : PV) : ∃ q : ℚ, safe_div num den = some q :=
  ⟨(divPV num (replace0 den)).getD 0, rfl⟩

/-! ### Algebra of counter-wise summation -/

lemma addRow_zero_left (c : Row) : addRow zeroRow c = c := by
  ext <;> simp [addRow, zeroRow]

lemma addRow_assoc (a b c : Row) : addRow (addRow a b) c = addRow a (addRow b c) := by
  ext <;> simp [addRow, add_assoc]

lemma foldr_addRow (A : List Row) (c : Row) : A.foldr addRow c = addRow (sumRows A) c := by
  induction A with
  | nil => simp [sumRows, addRow_zero_left]
  | cons a A ih =>
    show addRow a (A.foldr addRow c) = addRow (addRow a (sumRows A)) c
    rw [ih, addRow_assoc]

/-- Summation of raw counters over a concatenation is the counter-wise
sum of the two partial aggregates. -/
lemma sumRows_append (A B : List Row) :
    sumRows (A ++ B) = addRow (sumRows A) (sumRows B) := by
  show (A ++ B).foldr addRow zeroRow = _
  rw [List.foldr_append, foldr_addRow]
  rfl

/-- The Availability column computed by `calcular_kpis`, characterized on
plain rationals. -/
lemma disponibilidad_char (r : Row) :
    (calcular_kpis r).Disponibilidad =
      some (100 * ratioZ r.SAMPLES_CELL_AVAIL r.DENOM_CELL_AVAIL) := by
  have hdef : (calcular_kpis r).Disponibilidad =
      mulPV (some 100) (safe_div (some r.SAMPLES_CELL_AVAIL) (some r.DENOM_CELL_AVAIL)) := rfl
  rw [hdef, safe_div_some]
  simp [mulPV]

/-- The unweighted mean of two zero-safe ratios differs from the pooled
ratio of the summed numerators and denominators whenever the two
denominators differ and the two ratios differ (counters non-negative). -/
lemma mean_ne_pooled (s1 d1 s2 d2 : ℚ)
    (hs1 : 0 ≤ s1) (hd1 : 0 ≤ d1) (hs2 : 0 ≤ s2) (hd2 : 0 ≤ d2)
    (hdne : d1 ≠ d2) (hrne : ratioZ s1 d1 ≠ ratioZ s2 d2) :
    (100 * ratioZ s1 d1 + 100 * ratioZ s2 d2) / 2 ≠
      100 * ratioZ (s1 + s2) (d1 + d2) := by
  by_cases h1 : d1 = 0
  · subst h1
    have hd2ne : d2 ≠ 0 := Ne.symm hdne
    have hd2pos : (0 : ℚ) < d2 := lt_of_le_of_ne hd2 (Ne.symm hd2ne)
    have hs2pos : (0 : ℚ) < s2 := by
      rcases lt_or_eq_of_le hs2 with h | h
      · exact h
      · exfalso
        apply hrne
        simp [ratioZ, ← h]
    have hsum : (0 : ℚ) + d2 ≠ 0 := by simpa using hd2ne
    simp only [ratioZ, if_pos rfl, if_neg hd2ne, if_neg hsum]
    intro heq
    rw [div_eq_iff (by norm_num : (2 : ℚ) ≠ 0)] at heq
    rw [zero_add] at heq
    field_simp at heq
    nlinarith [heq, hs1, hs2pos, hd2pos]
  · by_cases h2 : d2 = 0
    · subst h2
      have hd1pos : (0 : ℚ) < d1 := lt_of_le_of_ne hd1 (Ne.symm h1)
      have hs1pos : (0 : ℚ) < s1 := by
        rcases lt_or_eq_of_le hs1 with h | h
        · exact h
        · exfalso
          apply hrne
          simp [ratioZ, ← h]
      have hsum : d1 + 0 ≠ 0 := by simpa using h1
      simp only [ratioZ, if_pos rfl, if_neg h1, if_neg hsum]
      intro heq
      rw [div_eq_iff (by norm_num : (2 : ℚ) ≠ 0)] at heq
      rw [add_zero] at heq
      field_simp at heq
      nlinarith [heq, hs2, hs1pos, hd1pos]
    · have hd1pos : (0 : ℚ) < d1 := lt_of_le_of_ne hd1 (Ne.symm h1)
      have hd2pos : (0 : ℚ) < d2 := lt_of_le_of_ne hd2 (Ne.symm h2)
      have hsum : d1 + d2 ≠ 0 := by positivity
      simp only [ratioZ, if_neg h1, if_neg h2, if_neg hsum]
      intro heq
      apply hrne
      simp only [ratioZ, if_neg h1, if_neg h2]
      rw [div_eq_div_iff h1 h2]
      field_simp at heq
      have hfac : (d2 - d1) * (s1 * d2 - s2 * d1) = 0 := by linarith [heq]
      rcases mul_eq_zero.mp hfac with h | h
      · exact absurd (by linarith : d1 = d2) hdne
      · linarith

/-! ### Lemmas about the cluster aggregation -/

/-- Grouping a nonempty table by date yields a nonempty table. -/
lemma groupByDateSum_ne_nil (rows : List RawRow) (h : rows ≠ []) :
    groupByDateSum rows ≠ [] := by
  intro hcontra
  have h1 : ((rows.map (·.date)).dedup).mergeSort (fun a b => decide (a ≤ b)) = [] := by
    simpa [groupByDateSum, List.map_eq_nil_iff] using hcontra
  have h2 := congrArg List.length h1
  rw [List.length_mergeSort] at h2
  simp [List.length_eq_zero, List.dedup_eq_nil, List.map_eq_nil_iff, h] at h2

/-- When every row of the filtered table carries site id 7 (a member of
the "Alajuela" cluster only), `clusterizar` reduces to the date-grouped
aggregate of the whole table tagged "Alajuela". -/
lemma clusterizar_all_site7 (df_in : List RawRow) (hne : df_in ≠ [])
    (h7 : ∀ r ∈ df_in, r.siteId = 7) :
    clusterizar df_in = (groupByDateSum df_in).map
      (fun p => { cluster := "Alajuela", date := p.1, kpis := calcular_kpis p.2 }) := by
  have h1 : df_in.filter (fun r => ([1, 2, 3, 4, 5, 6] : List ℤ).contains r.siteId) = [] := by
    rw [List.filter_eq_nil_iff]
    intro r hr
    rw [h7 r hr]
    decide
  have h2 : df_in.filter
      (fun r => ([7, 8, 9, 10, 11, 12, 13, 14, 15, 16, 17] : List ℤ).contains r.siteId) =
      df_in := by
    rw [List.filter_eq_self]
    intro r hr
    rw [h7 r hr]
    decide
  have h3 : df_in.filter
      (fun r => ([18, 19, 20, 21, 22, 48, 49] : List ℤ).contains r.siteId) = [] := by
    rw [List.filter_eq_nil_iff]
    intro r hr
    rw [h7 r hr]
    decide
  have h4 : df_in.filter
      (fun r => ([23, 24, 25, 26, 27, 28, 29, 30, 31, 32, 33, 34, 35, 36, 37, 46, 47] :
        List ℤ).contains r.siteId) = [] := by
    rw [List.filter_eq_nil_iff]
    intro r hr
    rw [h7 r hr]
    decide
  have h5 : df_in.filter
      (fun r => ([38, 39, 40, 41, 42, 43, 44, 45] : List ℤ).contains r.siteId) = [] := by
    rw [List.filter_eq_nil_iff]
    intro r hr
    rw [h7 r hr]
    decide
  have hemp : df_in.isEmpty = false := by
    simp [List.isEmpty_iff, hne]
  simp only [clusterizar, clusters, List.filterMap_cons, List.filterMap_nil,
    h1, h2, h3, h4, h5, List.isEmpty_nil, hemp]
  simp

/-! ### Claim theorems -/

/-- A raw row with 1 available sample out of 2 denominators (all other
counters zero); paired with `rowB` below it refutes the claim that
different denominators alone force the averaged Availability to differ
from the pooled one. -/
def rowA : Row := { zeroRow with SAMPLES_CELL_AVAIL := 1, DENOM_CELL_AVAIL := 2 }

/-- A raw row with 2 available samples out of 4 denominators: a different
denominator than `rowA` but the same 50% availability ratio. -/
def rowB : Row := { zeroRow with SAMPLES_CELL_AVAIL := 2, DENOM_CELL_AVAIL := 4 }

/-- A raw row with availability 100% (1 of 1). -/
def rowC : Row := { zeroRow with SAMPLES_CELL_AVAIL := 1, DENOM_CELL_AVAIL := 1 }

/-- A raw row with availability 0% (0 of 2). -/
def rowD : Row := { zeroRow with SAMPLES_CELL_AVAIL := 0, DENOM_CELL_AVAIL := 2 }

/-- C1 counterexample: `rowA` (1/2) and `rowB` (2/4) have different
denominators, yet the mean of their independently computed Availability
values (50 and 50) equals the Availability computed from the summed
counters (100·3/6 = 50) — refuting the claim's assertion that different
denominators alone guarantee inequality. -/
theorem C1_counterexample :
    rowA.DENOM_CELL_AVAIL ≠ rowB.DENOM_CELL_AVAIL ∧
    divPV (addPV ((calcular_kpis rowA).Disponibilidad)
        ((calcular_kpis rowB).Disponibilidad)) (some 2) =
      (calcular_kpis (addRow rowA rowB)).Disponibilidad := by
  constructor
  · norm_num [rowA, rowB, zeroRow]
  · rw [disponibilidad_char, disponibilidad_char, disponibilidad_char]
    norm_num [rowA, rowB, zeroRow, addRow, ratioZ, addPV, divPV]

/-- C1 (amended): KPI derivation commutes with prior summation of the raw
counters — `calcular_kpis` of the aggregate of a concatenation equals
`calcular_kpis` of the counter-wise sum of the two partial aggregates —
and for two rows with different denominators *and different Availability
values* the mean of the two independently computed Availability values
does not equal the Availability computed from the summed counters. -/
theorem C1_additive_invariant :
    (∀ A B : List Row,
      calcular_kpis (sumRows (A ++ B)) =
        calcular_kpis (addRow (sumRows A) (sumRows B))) ∧
    ∀ r1 r2 : Row,
      0 ≤ r1.SAMPLES_CELL_AVAIL → 0 ≤ r1.DENOM_CELL_AVAIL →
      0 ≤ r2.SAMPLES_CELL_AVAIL → 0 ≤ r2.DENOM_CELL_AVAIL →
      r1.DENOM_CELL_AVAIL ≠ r2.DENOM_CELL_AVAIL →
      (calcular_kpis r1).Disponibilidad ≠ (calcular_kpis r2).Disponibilidad →
      divPV (addPV ((calcular_kpis r1).Disponibilidad)
          ((calcular_kpis r2).Disponibilidad)) (some 2) ≠
        (calcular_kpis (addRow r1 r2)).Disponibilidad := by
  constructor
  · intro A B
    rw [sumRows_append]
  · intro r1 r2 hs1 hd1 hs2 hd2 hdne hrne
    rw [disponibilidad_char, disponibilidad_char, disponibilidad_char] at *
    have hadd1 : (addRow r1 r2).SAMPLES_CELL_AVAIL =
        r1.SAMPLES_CELL_AVAIL + r2.SAMPLES_CELL_AVAIL := rfl
    have hadd2 : (addRow r1 r2).DENOM_CELL_AVAIL =
        r1.DENOM_CELL_AVAIL + r2.DENOM_CELL_AVAIL := rfl
    rw [hadd1, hadd2]
    have hratio : ratioZ r1.SAMPLES_CELL_AVAIL r1.DENOM_CELL_AVAIL ≠
        ratioZ r2.SAMPLES_CELL_AVAIL r2.DENOM_CELL_AVAIL := by
      intro h
      exact hrne (by rw [h])
    have key := mean_ne_pooled r1.SAMPLES_CELL_AVAIL r1.DENOM_CELL_AVAIL
      r2.SAMPLES_CELL_AVAIL r2.DENOM_CELL_AVAIL hs1 hd1 hs2 hd2 hdne hratio
    simp only [addPV, divPV, Option.bind_some, Option.map_some, Option.some.injEq]
    intro h
    rcases h with h
    exact key (by simpa using h)

/-- C1 witness: the additive invariant applied to the singleton tables
{rowC} and {rowD}, and the non-averaging inequality applied to rowC
(100%) and rowD (0%), whose denominators (1 and 2) and availabilities
differ. -/
theorem C1_witness :
    calcular_kpis (sumRows ([rowC] ++ [rowD])) =
      calcular_kpis (addRow (sumRows [rowC]) (sumRows [rowD])) ∧
    divPV (addPV ((calcular_kpis rowC).Disponibilidad)
        ((calcular_kpis rowD).Disponibilidad)) (some 2) ≠
      (calcular_kpis (addRow rowC rowD)).Disponibilidad :=
  ⟨C1_additive_invariant.1 [rowC] [rowD],
   C1_additive_invariant.2 rowC rowD
     (by norm_num [rowC, zeroRow]) (by norm_num [rowC, zeroRow])
     (by norm_num [rowD, zeroRow]) (by norm_num [rowD, zeroRow])
     (by norm_num [rowC, rowD, zeroRow])
     (by rw [disponibilidad_char, disponibilidad_char]
         norm_num [rowC, rowD, zeroRow, ratioZ])⟩

/-- C2: for every (numerator, denominator) pair with denominator equal to
zero, `safe_div` returns 0 for that element — not undefined, not infinity,
not skipped, and no error is raised — for scalar and (element-wise)
vectorized inputs alike. -/
theorem C2_safe_div_zero_denominator :
    (∀ num : PV, safe_div num (some 0) = some 0) ∧
    ∀ (nums dens : List PV), nums.length = dens.length →
      List.Forall₂ (fun d res => d = some 0 → res = some 0)
        dens (safe_div_vec nums dens) := by
  refine ⟨safe_div_zero_den, ?_⟩
  intro nums dens h
  induction nums generalizing dens with
  | nil =>
    cases dens with
    | nil => simp [safe_div_vec]
    | cons d ds => simp at h
  | cons n ns ih =>
    cases dens with
    | nil => simp at h
    | cons d ds =>
      simp only [List.length_cons, Nat.add_right_cancel_iff] at h
      refine List.Forall₂.cons ?_ (ih ds h)
      intro hd
      subst hd
      exact safe_div_zero_den n

/-- C2 witness: the scalar and the vectorized statement instantiated at
concrete inputs with the hypotheses discharged. -/
theorem C2_witness :
    safe_div (some 5) (some 0) = some 0 ∧
    List.Forall₂ (fun d res => d = some 0 → res = some 0)
      ([some 0, some 2] : List PV)
      (safe_div_vec ([some 5, some 3] : List PV) ([some 0, some 2] : List PV)) :=
  ⟨C2_safe_div_zero_denominator.1 (some 5),
   C2_safe_div_zero_denominator.2 [some 5, some 3] [some 0, some 2] rfl⟩

/-- C3: the claim says that an aggregate row with `NG_FLOW_REL = 0` gets
Retainability (Technical) equal to 0 through the trailing `.fillna(0)`
fallback.  The code actually yields 100 there: `safe_div` already
substitutes 0 for the zero-denominator ratio (its own `.fillna(0)` runs
first), so the formula computes 100 − 100·0 = 100 and the outer
`.fillna(0)` never sees a NaN.  This theorem evaluates the code at the
failing inputs. -/
theorem C3_ret_tecnica_zero_releases :
    ∀ r : Row, r.NG_FLOW_REL = 0 →
      (calcular_kpis r).Retenibilidad_Tecnica = some 100 := by
  intro r h
  simp only [calcular_kpis, h, safe_div_zero_den]
  simp [subPV, mulPV, fillna0]

/-- C3 witness: the all-zero aggregate row evaluates to
Retainability (Technical) = 100, not 0. -/
theorem C3_witness :
    (calcular_kpis zeroRow).Retenibilidad_Tecnica = some 100 :=
  C3_ret_tecnica_zero_releases zeroRow rfl

/-- C4 counterexample: the claim asserts unconditionally that a value
exactly equal to the green threshold classifies Green, but with an
inverted threshold pair (green = 80 below red = 90) the red branch fires
first and the classifier returns Red. -/
theorem C4_counterexample :
    obtener_estado_kpi (some 80) 80 90 = "Rojo" ∧
    obtener_estado_kpi (some 80) 80 90 ≠ "Verde" := by
  constructor
  · rfl
  · intro h
    simp [obtener_estado_kpi, ltPV, gePV] at h
    norm_num at h

/-- C4 (amended): the classifier evaluates its rule in precedence order —
`v < red` yields Red; otherwise `v ≥ green` yields Green; otherwise
Yellow — so `v` exactly equal to the red threshold classifies Yellow when
red < green, `v` exactly equal to the green threshold classifies Green
when red ≤ green, and a `v` satisfying both conditions simultaneously
resolves to Red. -/
theorem C4_classifier_precedence :
    ∀ (v umbral_verde umbral_rojo : ℚ),
      (v < umbral_rojo →
        obtener_estado_kpi (some v) umbral_verde umbral_rojo = "Rojo") ∧
      (¬ v < umbral_rojo → umbral_verde ≤ v →
        obtener_estado_kpi (some v) umbral_verde umbral_rojo = "Verde") ∧
      (¬ v < umbral_rojo → ¬ umbral_verde ≤ v →
        obtener_estado_kpi (some v) umbral_verde umbral_rojo = "Amarillo") ∧
      (v < umbral_rojo → umbral_verde ≤ v →
        obtener_estado_kpi (some v) umbral_verde umbral_rojo = "Rojo") ∧
      (umbral_rojo < umbral_verde →
        obtener_estado_kpi (some umbral_rojo) umbral_verde umbral_rojo = "Amarillo") ∧
      (umbral_rojo ≤ umbral_verde →
        obtener_estado_kpi (some umbral_verde) umbral_verde umbral_rojo = "Verde") := by
  intro v verde rojo
  refine ⟨?_, ?_, ?_, ?_, ?_, ?_⟩
  · intro h
    simp [obtener_estado_kpi, ltPV, h]
  · intro h1 h2
    simp [obtener_estado_kpi, ltPV, gePV, h1, h2]
  · intro h1 h2
    simp [obtener_estado_kpi, ltPV, gePV, h1, h2]
  · intro h _
    simp [obtener_estado_kpi, ltPV, h]
  · intro h
    simp [obtener_estado_kpi, ltPV, gePV, lt_irrefl, not_le.2 h]
  · intro h
    simp [obtener_estado_kpi, ltPV, gePV, not_lt.2 h, le_refl]

/-- C4 witness: the spec's own boundary example {green: 99.0, red: 90}:
89.999 classifies Red, 90 classifies Yellow, 99.0 classifies Green. -/
theorem C4_witness :
    obtener_estado_kpi (some (89999 / 1000)) 99 90 = "Rojo" ∧
    obtener_estado_kpi (some 90) 99 90 = "Amarillo" ∧
    obtener_estado_kpi (some 99) 99 90 = "Verde" :=
  ⟨(C4_classifier_precedence (89999 / 1000) 99 90).1 (by norm_num),
   (C4_classifier_precedence 90 99 90).2.2.2.2.1 (by norm_num),
   (C4_classifier_precedence 99 99 90).2.2.2.2.2 (by norm_num)⟩

/-- C8: the static cluster table has exactly five named clusters, their
site-id sets are pairwise disjoint, and every member lies between 1 and
49 inclusive. -/
theorem C8_cluster_partition :
    clusters.length = 5 ∧
    clusters.Pairwise (fun a b => ∀ x ∈ a.2, x ∉ b.2) ∧
    ∀ c ∈ clusters, ∀ x ∈ c.2, 1 ≤ x ∧ x ≤ 49 := by
  refine ⟨rfl, ?_, ?_⟩ <;> decide

/-- C8 witness: the membership statement instantiated at the "Alajuela"
cluster and its member site id 7. -/
theorem C8_witness : (1 : ℤ) ≤ 7 ∧ (7 : ℤ) ≤ 49 :=
  C8_cluster_partition.2.2 ("Alajuela", [7, 8, 9, 10, 11, 12, 13, 14, 15, 16, 17])
    (by decide) 7 (by decide)

/-- C9: a missing/NaN KPI value (for example a site present in the site
directory but absent from the aggregated counters after a left merge)
classifies Yellow, because both numpy comparisons are false on NaN and
the `np.select` default applies — indistinguishable from a
between-thresholds value. -/
theorem C9_nan_classifies_amarillo :
    ∀ (umbral_verde umbral_rojo v : ℚ),
      obtener_estado_kpi none umbral_verde umbral_rojo = "Amarillo" ∧
      (umbral_rojo ≤ v → v < umbral_verde →
        obtener_estado_kpi (some v) umbral_verde umbral_rojo =
          obtener_estado_kpi none umbral_verde umbral_rojo) := by
  intro verde rojo v
  constructor
  · rfl
  · intro h1 h2
    simp [obtener_estado_kpi, ltPV, gePV, not_lt.2 h1, not_le.2 h2]

/-- C9 witness: with thresholds {green: 99, red: 90}, the NaN value and
the in-between value 95 both classify Yellow. -/
theorem C9_witness :
    obtener_estado_kpi none 99 90 = "Amarillo" ∧
    obtener_estado_kpi (some 95) 99 90 = obtener_estado_kpi none 99 90 :=
  ⟨(C9_nan_classifies_amarillo 99 90 95).1,
   (C9_nan_classifies_amarillo 99 90 95).2 (by norm_num) (by norm_num)⟩

/-- C5: for every input row, Accessibility equals
100 × (T1 × T2 × T3 × T4), each stage a zero-denominator-to-zero ratio
of the counters named in the source; consequently a row in which any
single stage denominator is zero has Accessibility exactly 0 (no error,
no NaN). -/
theorem C5_accesibilidad_chain :
    ∀ r : Row,
      (calcular_kpis r).Accesibilidad = some (100 *
        (ratioZ r.NRRCC_RRC_STPSUCC_TOT (den_t1 r) *
         ratioZ r.NNGCC_INIT_UE_MSG_SENT (den_t2 r) *
         ratioZ r.NNGCC_UE_LOGICAL_CONN_ESTAB r.NNGCC_INIT_UE_MSG_SENT *
         ratioZ r.NNGCC_UE_CTXT_STP_RESP_SENT r.NNGCC_UE_CTXT_STP_REQ_RECD)) ∧
      (den_t1 r = 0 ∨ den_t2 r = 0 ∨ r.NNGCC_INIT_UE_MSG_SENT = 0 ∨
          r.NNGCC_UE_CTXT_STP_REQ_RECD = 0 →
        (calcular_kpis r).Accesibilidad = some 0) := by
  intro r
  have hchar : (calcular_kpis r).Accesibilidad = some (100 *
      (ratioZ r.NRRCC_RRC_STPSUCC_TOT (den_t1 r) *
       ratioZ r.NNGCC_INIT_UE_MSG_SENT (den_t2 r) *
       ratioZ r.NNGCC_UE_LOGICAL_CONN_ESTAB r.NNGCC_INIT_UE_MSG_SENT *
       ratioZ r.NNGCC_UE_CTXT_STP_RESP_SENT r.NNGCC_UE_CTXT_STP_REQ_RECD)) := by
    have hdef : (calcular_kpis r).Accesibilidad =
        mulPV (some 100)
          (mulPV (mulPV (mulPV
            (safe_div (some r.NRRCC_RRC_STPSUCC_TOT) (some (den_t1 r)))
            (safe_div (some r.NNGCC_INIT_UE_MSG_SENT) (some (den_t2 r))))
            (safe_div (some r.NNGCC_UE_LOGICAL_CONN_ESTAB) (some r.NNGCC_INIT_UE_MSG_SENT)))
            (safe_div (some r.NNGCC_UE_CTXT_STP_RESP_SENT) (some r.NNGCC_UE_CTXT_STP_REQ_RECD))) :=
      rfl
    rw [hdef, safe_div_some, safe_div_some, safe_div_some, safe_div_some]
    simp [mulPV]
  refine ⟨hchar, ?_⟩
  intro hden
  rw [hchar]
  rcases hden with h | h | h | h <;> simp [h, ratioZ]

/-- C5 witness: a completely idle row (all counters zero) has every stage
denominator zero and Accessibility exactly 0. -/
theorem C5_witness :
    (calcular_kpis zeroRow).Accesibilidad = some 0 :=
  (C5_accesibilidad_chain zeroRow).2 (Or.inl (by norm_num [den_t1, zeroRow]))

/-- C6: for every row, Retainability (Average) equals the arithmetic mean
of the Retainability (Technical) and Retainability (User) values derived
on that same row. -/
theorem C6_ret_promedio_mean :
    ∀ (r : Row) (tec usr : ℚ),
      (calcular_kpis r).Retenibilidad_Tecnica = some tec →
      (calcular_kpis r).Retenibilidad_Usr = some usr →
      (calcular_kpis r).Retenibilidad_Prom = some ((tec + usr) / 2) := by
  intro r tec usr htec husr
  have hdef : (calcular_kpis r).Retenibilidad_Prom =
      divPV (addPV ((calcular_kpis r).Retenibilidad_Tecnica)
        ((calcular_kpis r).Retenibilidad_Usr)) (some 2) := rfl
  rw [hdef, htec, husr]
  simp [divPV, addPV]

/-- C6 witness: on the all-zero row both retainabilities evaluate to 100
and the average column evaluates to their mean. -/
theorem C6_witness :
    (calcular_kpis zeroRow).Retenibilidad_Prom = some ((100 + 100) / 2) :=
  C6_ret_promedio_mean zeroRow 100 100
    (by norm_num [calcular_kpis, zeroRow, safe_div, replace0, divPV, fillna0, subPV, mulPV])
    (by norm_num [calcular_kpis, zeroRow, safe_div, replace0, divPV, fillna0, subPV, mulPV])

/-- C10: the per-view retainability reimplementations of the
"KPI Individual" tab (no trailing `.fillna(0)`) compute exactly the same
Technical and User retainability values as the canonical `calcular_kpis`
formulas on the same summed counters, because `safe_div` already
substitutes 0 wherever the denominator is zero and thus never emits NaN
on defined counters. -/
theorem C10_indiv_formulas_equivalent :
    ∀ r : Row,
      retenibilidad_tecnica_indiv r.NG_FLOW_REL r.NG_FLOW_REL_NORMAL =
        (calcular_kpis r).Retenibilidad_Tecnica ∧
      retenibilidad_usuario_indiv r.NG_FLOW_REL r.NG_FLOW_REL_NORMAL
          r.NG_FLOW_REL_AMF_UE_LOST =
        (calcular_kpis r).Retenibilidad_Usr := by
  intro r
  constructor
  · have hdef : (calcular_kpis r).Retenibilidad_Tecnica =
        fillna0 (subPV (some 100) (mulPV (some 100)
          (safe_div (some (r.NG_FLOW_REL - r.NG_FLOW_REL_NORMAL))
            (some r.NG_FLOW_REL)))) := rfl
    rw [hdef, retenibilidad_tecnica_indiv, safe_div_some]
    simp [subPV, mulPV, fillna0]
  · have hdef : (calcular_kpis r).Retenibilidad_Usr =
        fillna0 (subPV (some 100) (mulPV (some 100)
          (safe_div
            (some (r.NG_FLOW_REL - r.NG_FLOW_REL_NORMAL - r.NG_FLOW_REL_AMF_UE_LOST))
            (some r.NG_FLOW_REL)))) := rfl
    rw [hdef, retenibilidad_usuario_indiv, safe_div_some]
    simp [subPV, mulPV, fillna0]

/-- C7: `clusterizar` emits output rows only for clusters having at
least one matching raw row (clusters with zero matching rows are
silently omitted), returns the empty table rather than raising when no
cluster matches, and over raw data containing only site id 7 returns a
nonempty output whose rows are all tagged "Alajuela" (exactly one cluster
row group). -/
theorem C7_clusterizar_coverage :
    ∀ df_in : List RawRow,
      (∀ out ∈ clusterizar df_in,
        ∃ c ∈ clusters, out.cluster = c.1 ∧ ∃ r ∈ df_in, r.siteId ∈ c.2) ∧
      ((∀ r ∈ df_in, ∀ c ∈ clusters, r.siteId ∉ c.2) → clusterizar df_in = []) ∧
      (df_in ≠ [] → (∀ r ∈ df_in, r.siteId = 7) →
        clusterizar df_in ≠ [] ∧
        ∀ out ∈ clusterizar df_in, out.cluster = "Alajuela") := by
  intro df_in
  refine ⟨?_, ?_, ?_⟩
  · intro out hout
    simp only [clusterizar] at hout
    split at hout
    · simp at hout
    · rw [List.mem_map] at hout
      obtain ⟨p, hp, hgp⟩ := hout
      rw [List.mem_flatten] at hp
      obtain ⟨L, hL, hpL⟩ := hp
      rw [List.mem_filterMap] at hL
      obtain ⟨c, hc, hfc⟩ := hL
      by_cases htmp : (df_in.filter (fun r => c.2.contains r.siteId)).isEmpty
      · rw [if_pos htmp] at hfc
        exact absurd hfc (by simp)
      · rw [if_neg htmp, Option.some.injEq] at hfc
        subst hfc
        refine ⟨c, hc, ?_, ?_⟩
        · rw [← hgp]
          rw [List.mem_map] at hpL
          obtain ⟨q, _, hq⟩ := hpL
          rw [← hq]
        · rw [List.isEmpty_iff] at htmp
          obtain ⟨r, hr⟩ := List.exists_mem_of_ne_nil _ htmp
          rw [List.mem_filter] at hr
          refine ⟨r, hr.1, ?_⟩
          have := hr.2
          simpa [List.contains] using this
  · intro hnone
    have hreg : (clusters.filterMap (fun c =>
        let tmp := df_in.filter (fun r => c.2.contains r.siteId)
        if tmp.isEmpty then none
        else some ((groupByDateSum tmp).map (fun p => (c.1, p.1, p.2))))) = [] := by
      rw [List.filterMap_eq_nil_iff]
      intro c hc
      have hfil : df_in.filter (fun r => c.2.contains r.siteId) = [] := by
        rw [List.filter_eq_nil_iff]
        intro r hr
        have := hnone r hr c hc
        simpa [List.contains] using this
      have hempt : (df_in.filter (fun r => c.2.contains r.siteId)).isEmpty = true := by
        rw [hfil]
        rfl
      simp only [hempt, if_pos]
    simp only [clusterizar, hreg]
    simp
  · intro hne h7
    rw [clusterizar_all_site7 df_in hne h7]
    constructor
    · simp [List.map_eq_nil_iff]
      exact groupByDateSum_ne_nil df_in hne
    · intro out hout
      rw [List.mem_map] at hout
      obtain ⟨p, _, hp⟩ := hout
      rw [← hp]

/-- C7 witness: a table holding one raw row for site 99 (no cluster
contains it) produces the empty output, and a table holding one raw row
for site 7 produces a nonempty output entirely tagged "Alajuela". -/
theorem C7_witness :
    clusterizar [⟨99, 0, zeroRow⟩] = [] ∧
    (clusterizar [⟨7, 0, zeroRow⟩] ≠ [] ∧
      ∀ out ∈ clusterizar [⟨7, 0, zeroRow⟩], out.cluster = "Alajuela") :=
  ⟨(C7_clusterizar_coverage [⟨99, 0, zeroRow⟩]).2.1 (by
      intro r hr c hc
      rw [List.mem_singleton] at hr
      subst hr
      revert hc
      revert c
      decide),
   (C7_clusterizar_coverage [⟨7, 0, zeroRow⟩]).2.2 (by simp) (by
      intro r hr
      rw [List.mem_singleton] at hr
      subst hr
      rfl)⟩

end Dashboard
